import Mathlib

/-!
Verification of the market-share aggregation engine of MarketShareProject
(`aggregator.py`, class `WorkingAggregator`), shallowly embedded in Lean 4.

Modelling conventions:
* A pandas cell value is `Value`: a missing value (`vNull`, covering both
  Python `None` and pandas `NaN`), a number (`vNum`, Python floats/ints
  modelled as exact rationals `ℚ`), or a string (`vStr`).
* A row (`pd.Series`) is an association list from column name to `Value`;
  `row.get(c, default)` is `rowGet`.
* A `pd.DataFrame` is a column list plus a row list.
* Python `dict`s (insertion-ordered, unique keys) are association lists.
* Functions that can raise return `Except String α`; the error string is the
  exception message.
* Python string primitives (`str.strip`, `str.upper`) are re-implemented by
  structural recursion on the character list so that concrete instances
  reduce; they agree with Python on the ASCII data this program handles.
-/

namespace MarketShare

/-- A raw spreadsheet cell value as seen by the aggregator. -/
inductive Value
  | vNull
  | vNum (q : ℚ)
  | vStr (s : String)
deriving DecidableEq

/-- A row of input data: column name → raw value (`pd.Series` row). -/
abbrev Record := List (String × Value)

/-- A dataframe: its column schema and its rows. -/
structure DataFrame where
  cols : List String
  rows : List Record
deriving DecidableEq

/-- `row.get(c, default)`: first value stored under `c`, or the default. -/
def rowGet (row : Record) (c : String) (dflt : Value) : Value :=
  (row.lookup c).getD dflt

/-- `pd.DataFrame.empty`: true when either axis has length 0. -/
def pdEmpty (df : DataFrame) : Bool :=
  df.rows.isEmpty || df.cols.isEmpty

/-- Python `str.strip()`: drop leading and trailing whitespace. -/
def pyStrip (s : String) : String :=
  ⟨((s.data.dropWhile Char.isWhitespace).reverse.dropWhile Char.isWhitespace).reverse⟩

/-- ASCII uppercasing of one character (Python `str.upper` on this data). -/
def pyUpperChar (c : Char) : Char :=
  if 'a' ≤ c ∧ c ≤ 'z' then Char.ofNat (c.toNat - 32) else c

/-- Python `str.upper()`. -/
def pyUpper (s : String) : String :=
  ⟨s.data.map pyUpperChar⟩

/-- Python `str()` of a cell. A missing value (pandas `NaN`) renders as
  `"nan"`; a string renders as itself. An integral float renders as in
  Python (`str(3.0) = "3.0"`); the string form of non-integral numbers is
  simplified (no claim depends on the string form of a numeric cell). -/
def pyStrVal : Value → String
  | .vNull => "nan"
  | .vStr s => s
  | .vNum q => if q.den = 1 then toString q.num ++ ".0" else toString q

/-- Numeric value of a digit list, most significant first. -/
def digitsVal (l : List Char) : ℕ :=
  l.foldl (fun a c => 10 * a + (c.toNat - 48)) 0

/-- Unsigned part of Python's `float(str)` grammar: `digits`, `digits.`,
  `digits.digits` or `.digits`. Exponent forms, `inf`/`nan` and digit
  underscores are accepted by Python but never produced by this data set and
  are not modelled; a comma is NOT accepted (Python raises `ValueError`). -/
def parseUnsigned (l : List Char) : Option ℚ :=
  let intPart := l.takeWhile Char.isDigit
  let rest := l.dropWhile Char.isDigit
  match rest with
  | [] => if intPart = [] then none else some (digitsVal intPart : ℚ)
  | '.' :: rest2 =>
      let fracPart := rest2.takeWhile Char.isDigit
      let rest3 := rest2.dropWhile Char.isDigit
      if rest3 = [] ∧ (intPart ≠ [] ∨ fracPart ≠ []) then
        some ((digitsVal intPart : ℚ) + (digitsVal fracPart : ℚ) / 10 ^ fracPart.length)
      else none
  | _ => none

/-- Python's `float(s)` on a string: surrounding whitespace is stripped, then
  an optional sign and an unsigned decimal literal; `none` models the
  `ValueError` raised on anything else. -/
def pyFloat (s : String) : Option ℚ :=
  match (pyStrip s).data with
  | '+' :: rest => parseUnsigned rest
  | '-' :: rest => (parseUnsigned rest).map Neg.neg
  | l => parseUnsigned l

/-- `WorkingAggregator.clean_numeric`: null → 0.0, numbers pass through
  (`float(x)`), strings are parsed with `float` and any `ValueError` is
  caught and turned into 0.0. Total by construction — it never raises. -/
def clean_numeric : Value → ℚ
  | .vNull => 0
  | .vNum q => q
  | .vStr s => (pyFloat s).getD 0

/-- `WorkingAggregator.NULL_VALUES`, verbatim from the source. -/
def NULL_VALUES : List String :=
  ["NILL", "", "0", "NIL", "NILL", "null", "NULL", "na", "NA"]

/-- `WorkingAggregator.standardize_brand`: null → absent; otherwise
  `str(brand).strip().upper()`, then absent if the result is a sentinel.
  Total by construction — it never raises. -/
def standardize_brand : Value → Option String
  | .vNull => none
  | v =>
      let s := pyUpper (pyStrip (pyStrVal v))
      if s ∈ NULL_VALUES then none else some s

/-- Python truthiness of the normalizer's result (`if brand and ...`):
  `None` and the empty string are falsy. -/
def brandTruthy : Option String → Bool
  | none => false
  | some s => s ≠ ""

/-- The filtering loop of `allocate_row_brands` over the zipped
  (brand column, workload column) pairs: keep `(brand, workload)` for the
  slots where the standardized brand is truthy and the workload exceeds 0. -/
def collectBrandWorkloads (row : Record) : List (String × String) → List (String × ℚ)
  | [] => []
  | (bcol, wcol) :: rest =>
      let brand := standardize_brand (rowGet row bcol .vNull)
      let workload := clean_numeric (rowGet row wcol (.vNum 0))
      if brandTruthy brand ∧ workload > 0 then
        ((brand.getD ""), workload) :: collectBrandWorkloads row rest
      else
        collectBrandWorkloads row rest

/-- `WorkingAggregator.allocate_row_brands`, generalized to an explicit list
  of (brand column, workload column) pairs (the Python loop runs over
  `zip(brand_cols, workload_cols)`). -/
def allocatePairs (row : Record) (pairs : List (String × String)) (days_per_year : ℤ) :
    List (String × ℚ) :=
  let bw := collectBrandWorkloads row pairs
  let daily_sum : ℚ := (bw.map Prod.snd).sum
  if daily_sum ≤ 0 then []
  else
    let total_yearly := daily_sum * (days_per_year : ℚ)
    bw.map (fun p => (p.1, p.2 / daily_sum * total_yearly))

/-- `WorkingAggregator.allocate_row_brands(row, brand_cols, workload_cols,
  days_per_year)`. -/
def allocate_row_brands (row : Record) (brand_cols workload_cols : List String)
    (days_per_year : ℤ) : List (String × ℚ) :=
  allocatePairs row (brand_cols.zip workload_cols) days_per_year

/-- The row's `daily_sum`: sum of the retained slots' workloads. -/
def rowDailySum (row : Record) (brand_cols workload_cols : List String) : ℚ :=
  ((collectBrandWorkloads row (brand_cols.zip workload_cols)).map Prod.snd).sum

/-- The row's `total_yearly` volume, `daily_sum * days_per_year`. -/
def rowYearlyVolume (row : Record) (brand_cols workload_cols : List String)
    (days_per_year : ℤ) : ℚ :=
  rowDailySum row brand_cols workload_cols * (days_per_year : ℚ)

lemma sum_map_share (l : List (String × ℚ)) (ds d : ℚ) (hds : ds ≠ 0) :
    ((l.map (fun p => (p.1, p.2 / ds * (ds * d)))).map Prod.snd).sum
      = (l.map Prod.snd).sum * d := by
  induction l with
  | nil => simp
  | cons p l ih =>
      simp only [List.map_cons, List.sum_cons, ih, add_mul]
      congr 1
      field_simp
      ring

/-- **C1.** Conservation: whenever `allocate_row_brands` emits a non-empty
  list of allocations, the emitted volumes sum exactly to
  `row_yearly_volume = daily_sum * days_per_year`; in particular the sum is
  within 1e-6 relative tolerance of `row_yearly_volume`. (Floats are
  modelled as exact rationals, so the floating-point rounding slack of the
  claim is subsumed by exact equality.) -/
theorem allocate_row_brands_conservation (row : Record)
    (brand_cols workload_cols : List String) (days_per_year : ℤ)
    (h : allocate_row_brands row brand_cols workload_cols days_per_year ≠ []) :
    ((allocate_row_brands row brand_cols workload_cols days_per_year).map Prod.snd).sum
        = rowYearlyVolume row brand_cols workload_cols days_per_year ∧
    |((allocate_row_brands row brand_cols workload_cols days_per_year).map Prod.snd).sum
        - rowYearlyVolume row brand_cols workload_cols days_per_year|
      ≤ |rowYearlyVolume row brand_cols workload_cols days_per_year| / 1000000 := by
  have key : ((allocate_row_brands row brand_cols workload_cols days_per_year).map Prod.snd).sum
      = rowYearlyVolume row brand_cols workload_cols days_per_year := by
    unfold allocate_row_brands allocatePairs at h ⊢
    unfold rowYearlyVolume rowDailySum
    set bw := collectBrandWorkloads row (brand_cols.zip workload_cols) with hbw
    set ds : ℚ := (bw.map Prod.snd).sum with hds
    by_cases hle : ds ≤ 0
    · simp [hle] at h
    · have hne : ds ≠ 0 := fun h0 => hle (le_of_eq h0)
      simp only [hle, if_false]
      exact sum_map_share bw ds (days_per_year : ℚ) hne
  refine ⟨key, ?_⟩
  rw [key]
  simp only [sub_self, abs_zero]
  positivity

/-- The spec's example row: AlphaCo reports 10 daily tests, BetaCo 15. -/
def exRow1 : Record :=
  [("B1", Value.vStr "AlphaCo"), ("W1", Value.vNum 10),
   ("B2", Value.vStr "BetaCo"), ("W2", Value.vNum 15)]

lemma exRow1_collect :
    collectBrandWorkloads exRow1 [("B1", "W1"), ("B2", "W2")]
      = [("ALPHACO", 10), ("BETACO", 15)] := by
  simp +decide [collectBrandWorkloads, rowGet, standardize_brand, clean_numeric,
    pyStrVal, pyStrip, pyUpper, pyUpperChar, brandTruthy, NULL_VALUES, exRow1]

lemma exRow1_alloc :
    allocate_row_brands exRow1 ["B1", "B2"] ["W1", "W2"] 350
      = [("ALPHACO", 3500), ("BETACO", 5250)] := by
  rw [allocate_row_brands, allocatePairs,
    show ["B1", "B2"].zip ["W1", "W2"] = [("B1", "W1"), ("B2", "W2")] from rfl,
    exRow1_collect]
  norm_num

/-- Witness for C1 on the spec's example row: brands AlphaCo (workload 10)
  and BetaCo (workload 15), 350 days per year; the yearly volume 25 × 350 =
  8750 is conserved. -/
theorem allocate_row_brands_conservation_witness :
    (allocate_row_brands exRow1 ["B1", "B2"] ["W1", "W2"] 350 ≠ []) ∧
    ((allocate_row_brands exRow1 ["B1", "B2"] ["W1", "W2"] 350).map Prod.snd).sum
      = rowYearlyVolume exRow1 ["B1", "B2"] ["W1", "W2"] 350 ∧
    rowYearlyVolume exRow1 ["B1", "B2"] ["W1", "W2"] 350 = 8750 :=
  ⟨by rw [exRow1_alloc]; simp,
   (allocate_row_brands_conservation exRow1 ["B1", "B2"] ["W1", "W2"] 350
      (by rw [exRow1_alloc]; simp)).1,
   by rw [rowYearlyVolume, rowDailySum,
        show ["B1", "B2"].zip ["W1", "W2"] = [("B1", "W1"), ("B2", "W2")] from rfl,
        exRow1_collect]; norm_num⟩

lemma collect_drop_absent (row : Record) (post : List (String × String))
    (bcol wcol : String) (pre : List (String × String))
    (h : standardize_brand (rowGet row bcol .vNull) = none) :
    collectBrandWorkloads row (pre ++ (bcol, wcol) :: post)
      = collectBrandWorkloads row (pre ++ post) := by
  induction pre with
  | nil => simp [collectBrandWorkloads, h, brandTruthy]
  | cons p pre ih =>
      obtain ⟨b, w⟩ := p
      simp only [List.cons_append, collectBrandWorkloads, List.append_eq, ih]

/-- **C4.** Null handling: the normalizer never raises (it is total by
  construction), maps null to absent, maps any string whose stripped and
  uppercased form is a configured sentinel (in particular `"NILL"`, `""`,
  `"0"`) to absent, and returns the stripped uppercased string otherwise;
  and a slot whose brand cell normalizes to absent is dropped from the
  allocation loop regardless of its paired workload value, so it never
  emits an allocation. -/
theorem standardize_brand_null_handling :
    standardize_brand .vNull = none ∧
    ("NILL" ∈ NULL_VALUES ∧ "" ∈ NULL_VALUES ∧ "0" ∈ NULL_VALUES) ∧
    (∀ s : String, pyUpper (pyStrip s) ∈ NULL_VALUES →
        standardize_brand (.vStr s) = none) ∧
    (∀ s : String, pyUpper (pyStrip s) ∉ NULL_VALUES →
        standardize_brand (.vStr s) = some (pyUpper (pyStrip s))) ∧
    (∀ (row : Record) (pre post : List (String × String)) (bcol wcol : String)
        (days_per_year : ℤ),
        standardize_brand (rowGet row bcol .vNull) = none →
        allocatePairs row (pre ++ (bcol, wcol) :: post) days_per_year
          = allocatePairs row (pre ++ post) days_per_year) := by
  refine ⟨rfl, by decide, ?_, ?_, ?_⟩
  · intro s hs
    simp [standardize_brand, pyStrVal, hs]
  · intro s hs
    simp [standardize_brand, pyStrVal, hs]
  · intro row pre post bcol wcol days h
    unfold allocatePairs
    rw [collect_drop_absent row post bcol wcol pre h]

/-- A row whose first brand slot holds the sentinel `"NILL"` with a large
  paired workload, next to one real brand. -/
def exRow2 : Record :=
  [("B0", Value.vStr "NILL"), ("W0", Value.vNum 50),
   ("B1", Value.vStr "AlphaCo"), ("W1", Value.vNum 10)]

/-- Witness for C4: the sentinel `" nill "` and the null cell normalize to
  absent, a real brand is stripped and uppercased, and a `"NILL"` slot with
  workload 50 contributes nothing to the allocation. -/
theorem standardize_brand_null_handling_witness :
    standardize_brand (.vStr " nill ") = none ∧
    standardize_brand (.vStr " AlphaCo ") = some "ALPHACO" ∧
    allocatePairs exRow2 [("B0", "W0"), ("B1", "W1")] 350
      = allocatePairs exRow2 [("B1", "W1")] 350 :=
  ⟨standardize_brand_null_handling.2.2.1 " nill " (by decide),
   (standardize_brand_null_handling.2.2.2.1 " AlphaCo " (by decide)).trans (by decide),
   standardize_brand_null_handling.2.2.2.2 exRow2 [] [("B1", "W1")] "B0" "W0" 350
     (by decide)⟩

/-- **C7 counterexample.** The coercion used by row allocation does NOT
  strip commas: `clean_numeric` on the string `"1,200"` yields `0`, not
  `1200` as the claim states (Python's `float("1,200")` raises `ValueError`
  and `clean_numeric` catches it, returning 0.0). -/
theorem clean_numeric_comma_counterexample :
    clean_numeric (.vStr "1,200") = 0 ∧ (0 : ℚ) ≠ 1200 := by
  exact ⟨by decide, by norm_num⟩

/-- **C7 (amended).** The numeric coercion used by row allocation is total
  and never raises: a null/missing cell yields 0, a numeric cell passes
  through, a string is parsed with Python `float` semantics (surrounding
  whitespace tolerated) and any failure yields 0; commas are NOT stripped,
  so `"1,200"` coerces to 0 while `" 1200 "` parses to 1200. -/
theorem clean_numeric_total_amended :
    clean_numeric .vNull = 0 ∧
    (∀ q : ℚ, clean_numeric (.vNum q) = q) ∧
    (∀ s : String, pyFloat s = none → clean_numeric (.vStr s) = 0) ∧
    (∀ (s : String) (q : ℚ), pyFloat s = some q → clean_numeric (.vStr s) = q) ∧
    clean_numeric (.vStr " 1200 ") = 1200 ∧
    clean_numeric (.vStr "1,200") = 0 := by
  refine ⟨rfl, fun q => rfl, ?_, ?_, ?_, by decide⟩
  · intro s hs; simp [clean_numeric, hs]
  · intro s q hs; simp [clean_numeric, hs]
  · show (pyFloat " 1200 ").getD 0 = 1200
    rw [show pyFloat " 1200 " = some ((1200 : ℕ) : ℚ) from by decide]
    norm_num

/-- Witness for C7 (amended): a non-numeric string coerces to 0; a plain
  digit string parses. -/
theorem clean_numeric_total_amended_witness :
    clean_numeric (.vStr "abc") = 0 ∧ clean_numeric (.vStr "1200") = 1200 :=
  ⟨clean_numeric_total_amended.2.2.1 "abc" (by decide),
   by
     rw [clean_numeric_total_amended.2.2.2.1 "1200" ((1200 : ℕ) : ℚ) (by decide)]
     norm_num⟩

/-- The comparator of `sorted(brand_totals.items(), key=lambda x: x[1],
  reverse=True)`: `a` may precede `b` when `b`'s volume does not exceed
  `a`'s. Python's sort is stable, as is `List.mergeSort`. -/
def descBySnd (a b : String × ℚ) : Bool :=
  decide (b.2 ≤ a.2)

lemma descBySnd_trans : ∀ a b c : String × ℚ,
    descBySnd a b → descBySnd b c → descBySnd a c := by
  intro a b c hab hbc
  simp only [descBySnd, decide_eq_true_eq] at *
  exact le_trans hbc hab

lemma descBySnd_total : ∀ a b : String × ℚ, descBySnd a b || descBySnd b a := by
  intro a b
  simp only [descBySnd, Bool.or_eq_true, decide_eq_true_eq]
  exact le_total b.2 a.2

/-- `sorted(items, key=lambda x: x[1], reverse=True)`: stable descending
  sort on the volume. -/
def pySortDescBySnd (l : List (String × ℚ)) : List (String × ℚ) :=
  l.mergeSort descBySnd

/-- `WorkingAggregator.calculate_market_share`: empty when the grand total
  is non-positive, otherwise each total divided by the grand total times
  100, in stable descending volume order (the Python dict comprehension
  keeps the sorted insertion order). -/
def calculate_market_share (brand_totals : List (String × ℚ)) : List (String × ℚ) :=
  let total := (brand_totals.map Prod.snd).sum
  if total ≤ 0 then []
  else (pySortDescBySnd brand_totals).map (fun p => (p.1, p.2 / total * 100))

/-- **C8.** For a brand-totals mapping with non-positive grand total
  (including the empty mapping) `calculate_market_share` returns the empty
  mapping. (The input is never mutated: the embedding is a pure function of
  its argument, as is the Python source, which only reads `brand_totals`.) -/
theorem calculate_market_share_nonpositive (brand_totals : List (String × ℚ))
    (h : (brand_totals.map Prod.snd).sum ≤ 0) :
    calculate_market_share brand_totals = [] := by
  simp [calculate_market_share, h]

/-- Witness for C8: a single brand with zero volume yields an empty share
  mapping. -/
theorem calculate_market_share_nonpositive_witness :
    (([("BRANDX", (0 : ℚ))].map Prod.snd).sum ≤ 0) ∧
    calculate_market_share [("BRANDX", (0 : ℚ))] = [] :=
  ⟨by simp,
   calculate_market_share_nonpositive [("BRANDX", (0 : ℚ))] (by simp)⟩

lemma sum_map_scale (l : List (String × ℚ)) (t : ℚ) :
    ((l.map (fun p => (p.1, p.2 / t * 100))).map Prod.snd).sum
      = (l.map Prod.snd).sum / t * 100 := by
  induction l with
  | nil => simp
  | cons p l ih =>
      simp only [List.map_cons, List.sum_cons, ih]
      ring

/-- **C2.** For a non-empty brand-totals mapping with positive grand total,
  `calculate_market_share`: (i) only emits entries whose value is a source
  total divided by the grand total times 100; (ii) emits such an entry for
  every source entry; (iii) the emitted values sum to exactly 100 (so within
  1e-6); (iv) entries are in descending volume order; and (v) the order is
  the stable descending sort of the input: any two input entries already in
  weakly descending order keep their relative order in the output — ties are
  broken by input iteration order. -/
theorem calculate_market_share_spec (brand_totals : List (String × ℚ))
    (hne : brand_totals ≠ [])
    (hpos : 0 < (brand_totals.map Prod.snd).sum) :
    (∀ p ∈ calculate_market_share brand_totals,
        ∃ w : ℚ, (p.1, w) ∈ brand_totals ∧
          p.2 = w / (brand_totals.map Prod.snd).sum * 100) ∧
    (∀ p ∈ brand_totals,
        (p.1, p.2 / (brand_totals.map Prod.snd).sum * 100)
          ∈ calculate_market_share brand_totals) ∧
    ((calculate_market_share brand_totals).map Prod.snd).sum = 100 ∧
    (calculate_market_share brand_totals).Pairwise (fun p q => q.2 ≤ p.2) ∧
    (∀ p q : String × ℚ, [p, q].Sublist brand_totals → q.2 ≤ p.2 →
        [(p.1, p.2 / (brand_totals.map Prod.snd).sum * 100),
         (q.1, q.2 / (brand_totals.map Prod.snd).sum * 100)].Sublist
          (calculate_market_share brand_totals)) := by
  have hle : ¬ (brand_totals.map Prod.snd).sum ≤ 0 := not_le.mpr hpos
  have htne : (brand_totals.map Prod.snd).sum ≠ 0 := ne_of_gt hpos
  have hms : calculate_market_share brand_totals
      = (pySortDescBySnd brand_totals).map
          (fun p => (p.1, p.2 / (brand_totals.map Prod.snd).sum * 100)) := by
    simp [calculate_market_share, hle]
  refine ⟨?_, ?_, ?_, ?_, ?_⟩
  · intro p hp
    rw [hms] at hp
    obtain ⟨q, hq, hfq⟩ := List.mem_map.mp hp
    rw [pySortDescBySnd, List.mem_mergeSort] at hq
    exact ⟨q.2, by rw [← hfq]; exact hq, by rw [← hfq]⟩
  · intro p hp
    rw [hms]
    exact List.mem_map.mpr ⟨p, by rw [pySortDescBySnd, List.mem_mergeSort]; exact hp, rfl⟩
  · rw [hms, sum_map_scale]
    have hperm : (pySortDescBySnd brand_totals).Perm brand_totals :=
      List.mergeSort_perm brand_totals descBySnd
    rw [(hperm.map Prod.snd).sum_eq]
    field_simp
  · rw [hms]
    have hsorted : (pySortDescBySnd brand_totals).Pairwise fun a b => descBySnd a b :=
      List.sorted_mergeSort descBySnd_trans descBySnd_total brand_totals
    refine hsorted.map _ ?_
    intro a b hab
    simp only [descBySnd, decide_eq_true_eq] at hab
    have h1 : b.2 / (brand_totals.map Prod.snd).sum ≤ a.2 / (brand_totals.map Prod.snd).sum := by
      gcongr
    exact mul_le_mul_of_nonneg_right h1 (by norm_num)
  · intro p q hsub hqp
    rw [hms]
    have hstable : [p, q].Sublist (pySortDescBySnd brand_totals) :=
      List.pair_sublist_mergeSort descBySnd_trans descBySnd_total
        (by simp [descBySnd, hqp]) hsub
    simpa using hstable.map
      (fun p => (p.1, p.2 / (brand_totals.map Prod.snd).sum * 100))

/-- The spec's example brand totals: AlphaCo 140, BetaCo 210 (grand total
  350). -/
def exTotals1 : List (String × ℚ) := [("ALPHACO", 140), ("BETACO", 210)]

/-- Witness for C2 on the spec's example totals: the shares sum to 100 and
  BetaCo's 60% entry precedes AlphaCo's 40% in descending order. -/
theorem calculate_market_share_spec_witness :
    ((calculate_market_share exTotals1).map Prod.snd).sum = 100 ∧
    (calculate_market_share exTotals1).Pairwise (fun p q => q.2 ≤ p.2) ∧
    ("BETACO", (60 : ℚ)) ∈ calculate_market_share exTotals1 :=
  ⟨(calculate_market_share_spec exTotals1 (by simp [exTotals1]) (by norm_num [exTotals1])).2.2.1,
   (calculate_market_share_spec exTotals1 (by simp [exTotals1]) (by norm_num [exTotals1])).2.2.2.1,
   by
     have h := (calculate_market_share_spec exTotals1 (by simp [exTotals1])
        (by norm_num [exTotals1])).2.1 ("BETACO", 210) (by simp [exTotals1])
     norm_num [exTotals1] at h ⊢
     exact h⟩

/-- One `brand_totals[brand] = brand_totals.get(brand, 0) + allocated` step
  on the insertion-ordered Python dict: update in place when the key exists,
  append otherwise. -/
def dictAdd (m : List (String × ℚ)) (b : String) (a : ℚ) : List (String × ℚ) :=
  if (m.lookup b).isSome then
    m.map (fun p => if p.1 = b then (p.1, p.2 + a) else p)
  else m ++ [(b, a)]

/-- The inner loop of `calculate_brand_totals`: fold one row's allocations
  into the running totals dict. -/
def foldAllocations (m : List (String × ℚ)) (l : List (String × ℚ)) :
    List (String × ℚ) :=
  l.foldl (fun m p => dictAdd m p.1 p.2) m

/-- `WorkingAggregator.calculate_brand_totals`: fold every row's
  allocations into one totals dict. -/
def calculate_brand_totals (df : DataFrame) (brand_cols workload_cols : List String)
    (days_per_year : ℤ) : List (String × ℚ) :=
  df.rows.foldl
    (fun m row =>
      foldAllocations m (allocate_row_brands row brand_cols workload_cols days_per_year))
    []

/-- `brand_totals.get(b, 0)`. -/
def lookupD (m : List (String × ℚ)) (b : String) : ℚ :=
  (m.lookup b).getD 0

/-- All allocations of the record set, in row order. -/
def allAllocations (df : DataFrame) (brand_cols workload_cols : List String)
    (days_per_year : ℤ) : List (String × ℚ) :=
  df.rows.flatMap
    (fun row => allocate_row_brands row brand_cols workload_cols days_per_year)

/-- Total volume attributed to brand `b` in a flat allocation list. -/
def sumFor (l : List (String × ℚ)) (b : String) : ℚ :=
  ((l.filter (fun p => p.1 = b)).map Prod.snd).sum

lemma lookup_cons_ite (k : String) (v : ℚ) (es : List (String × ℚ)) (b : String) :
    ((k, v) :: es).lookup b = if b = k then some v else es.lookup b := by
  rw [List.lookup_cons]
  by_cases h : b = k
  · simp [h]
  · have hbk : (b == k) = false := beq_eq_false_iff_ne.mpr h
    simp [h, hbk]

lemma lookup_append_ite (l1 l2 : List (String × ℚ)) (b : String) :
    (l1 ++ l2).lookup b
      = match l1.lookup b with
        | some v => some v
        | none => l2.lookup b := by
  induction l1 with
  | nil => simp
  | cons q l1 ih =>
      obtain ⟨k, v⟩ := q
      rw [List.cons_append, lookup_cons_ite, lookup_cons_ite]
      by_cases h : b = k <;> simp [h, ih]

lemma lookup_map_update (m : List (String × ℚ)) (b bu : String) (a : ℚ) :
    (m.map (fun p => if p.1 = bu then (p.1, p.2 + a) else p)).lookup b
      = (m.lookup b).map (fun v => if b = bu then v + a else v) := by
  induction m with
  | nil => simp
  | cons q m ih =>
      obtain ⟨k, v⟩ := q
      simp only [List.map_cons]
      by_cases hku : k = bu
      · subst hku
        simp only [if_pos rfl]
        rw [lookup_cons_ite, lookup_cons_ite]
        by_cases hb : b = k <;> simp [hb, ih]
      · simp only [if_neg hku]
        rw [lookup_cons_ite, lookup_cons_ite]
        by_cases hb : b = k
        · subst hb
          simp [hku]
        · simp [hb, ih]

lemma lookupD_dictAdd (m : List (String × ℚ)) (bu b : String) (a : ℚ) :
    lookupD (dictAdd m bu a) b = lookupD m b + (if bu = b then a else 0) := by
  unfold dictAdd lookupD
  by_cases hS : (m.lookup bu).isSome
  · simp only [hS, if_true, lookup_map_update]
    by_cases hb : b = bu
    · subst hb
      obtain ⟨v, hv⟩ := Option.isSome_iff_exists.mp hS
      simp [hv]
    · have : bu ≠ b := fun h => hb h.symm
      cases hmb : m.lookup b <;> simp [hmb, hb, this]
  · rw [if_neg hS, lookup_append_ite]
    by_cases hb : bu = b
    · subst hb
      have hnone : m.lookup bu = none := Option.not_isSome_iff_eq_none.mp hS
      simp [hnone, lookup_cons_ite]
    · have hb' : b ≠ bu := fun h => hb h.symm
      cases hmb : m.lookup b <;> simp [hmb, lookup_cons_ite, hb', hb]

lemma sumFor_cons (p : String × ℚ) (l : List (String × ℚ)) (b : String) :
    sumFor (p :: l) b = (if p.1 = b then p.2 else 0) + sumFor l b := by
  by_cases h : p.1 = b <;> simp [sumFor, List.filter_cons, h]

lemma sumFor_append (l1 l2 : List (String × ℚ)) (b : String) :
    sumFor (l1 ++ l2) b = sumFor l1 b + sumFor l2 b := by
  simp [sumFor, List.filter_append]

lemma lookupD_foldAllocations (l : List (String × ℚ)) (m : List (String × ℚ))
    (b : String) :
    lookupD (foldAllocations m l) b = lookupD m b + sumFor l b := by
  induction l generalizing m with
  | nil => simp [foldAllocations, sumFor]
  | cons p l ih =>
      have hstep : foldAllocations m (p :: l) = foldAllocations (dictAdd m p.1 p.2) l := rfl
      rw [hstep, ih, lookupD_dictAdd, sumFor_cons]
      ring

lemma lookupD_foldl_rows (rows : List Record) (brand_cols workload_cols : List String)
    (days_per_year : ℤ) (m : List (String × ℚ)) (b : String) :
    lookupD
        (rows.foldl
          (fun m row =>
            foldAllocations m (allocate_row_brands row brand_cols workload_cols days_per_year))
          m) b
      = lookupD m b
        + sumFor
            (rows.flatMap
              (fun row => allocate_row_brands row brand_cols workload_cols days_per_year)) b := by
  induction rows generalizing m with
  | nil => simp [sumFor]
  | cons r rows ih =>
      simp only [List.foldl_cons, List.flatMap_cons, ih, lookupD_foldAllocations,
        sumFor_append]
      ring

/-- The totals dict agrees with the flat per-brand sum of all allocations. -/
lemma lookupD_calculate_brand_totals (df : DataFrame)
    (brand_cols workload_cols : List String) (days_per_year : ℤ) (b : String) :
    lookupD (calculate_brand_totals df brand_cols workload_cols days_per_year) b
      = sumFor (allAllocations df brand_cols workload_cols days_per_year) b := by
  unfold calculate_brand_totals allAllocations
  rw [lookupD_foldl_rows]
  simp [lookupD]

lemma collect_pos (row : Record) :
    ∀ pairs, ∀ p ∈ collectBrandWorkloads row pairs, 0 < p.2 := by
  intro pairs
  induction pairs with
  | nil => simp [collectBrandWorkloads]
  | cons q rest ih =>
      obtain ⟨bcol, wcol⟩ := q
      intro p hp
      rw [collectBrandWorkloads] at hp
      split at hp
      · rename_i hcond
        rcases List.mem_cons.mp hp with h | h
        · subst h; exact hcond.2
        · exact ih p h
      · exact ih p hp

lemma allocatePairs_pos (row : Record) (pairs : List (String × String))
    (days_per_year : ℤ) (hd : 0 < days_per_year) :
    ∀ p ∈ allocatePairs row pairs days_per_year, 0 < p.2 := by
  intro p hp
  unfold allocatePairs at hp
  set bw := collectBrandWorkloads row pairs with hbw
  set ds : ℚ := (bw.map Prod.snd).sum with hds
  by_cases hle : ds ≤ 0
  · simp [hle] at hp
  · simp only [hle, if_false, List.mem_map] at hp
    obtain ⟨q, hq, hfq⟩ := hp
    have hq2 : 0 < q.2 := collect_pos row pairs q hq
    have hds' : 0 < ds := lt_of_not_le hle
    have hdq : (0 : ℚ) < (days_per_year : ℚ) := by exact_mod_cast hd
    rw [← hfq]
    positivity

lemma dictAdd_pos (m : List (String × ℚ)) (b : String) (a : ℚ)
    (hm : ∀ p ∈ m, 0 < p.2) (ha : 0 < a) :
    ∀ p ∈ dictAdd m b a, 0 < p.2 := by
  intro p hp
  unfold dictAdd at hp
  split at hp
  · obtain ⟨q, hq, hfq⟩ := List.mem_map.mp hp
    by_cases hqb : q.1 = b
    · simp only [hqb, if_true] at hfq
      rw [← hfq]
      exact add_pos (hm q hq) ha
    · simp only [hqb, if_false] at hfq
      rw [← hfq]
      exact hm q hq
  · rcases List.mem_append.mp hp with h | h
    · exact hm p h
    · simp only [List.mem_singleton] at h
      subst h
      exact ha

lemma foldAllocations_pos (l : List (String × ℚ)) (m : List (String × ℚ))
    (hm : ∀ p ∈ m, 0 < p.2) (hl : ∀ p ∈ l, 0 < p.2) :
    ∀ p ∈ foldAllocations m l, 0 < p.2 := by
  induction l generalizing m with
  | nil => exact fun p hp => hm p hp
  | cons q l ih =>
      have hstep : foldAllocations m (q :: l) = foldAllocations (dictAdd m q.1 q.2) l := rfl
      rw [hstep]
      exact ih (dictAdd m q.1 q.2)
        (dictAdd_pos m q.1 q.2 hm (hl q (List.mem_cons_self q l)))
        (fun p hp => hl p (List.mem_cons_of_mem q hp))

/-- **C10.** With a positive `days_per_year`, every allocation volume
  emitted by `allocate_row_brands` is strictly positive (only slots with a
  present brand and workload > 0 enter the working set), and consequently
  every value in the totals produced by `calculate_brand_totals` over any
  record set is strictly positive — no brand ever appears with a zero or
  negative total. -/
theorem allocations_and_totals_positive (days_per_year : ℤ)
    (hd : 0 < days_per_year) :
    (∀ (row : Record) (brand_cols workload_cols : List String),
        ∀ p ∈ allocate_row_brands row brand_cols workload_cols days_per_year, 0 < p.2) ∧
    (∀ (df : DataFrame) (brand_cols workload_cols : List String),
        ∀ p ∈ calculate_brand_totals df brand_cols workload_cols days_per_year, 0 < p.2) := by
  have halloc : ∀ (row : Record) (brand_cols workload_cols : List String),
      ∀ p ∈ allocate_row_brands row brand_cols workload_cols days_per_year, 0 < p.2 :=
    fun row bcols wcols =>
      allocatePairs_pos row (bcols.zip wcols) days_per_year hd
  refine ⟨halloc, ?_⟩
  intro df bcols wcols
  unfold calculate_brand_totals
  have key : ∀ (rows : List Record) (m : List (String × ℚ)),
      (∀ p ∈ m, 0 < p.2) →
      ∀ p ∈ rows.foldl
          (fun m row => foldAllocations m (allocate_row_brands row bcols wcols days_per_year))
          m, 0 < p.2 := by
    intro rows
    induction rows with
    | nil => exact fun m hm => hm
    | cons r rows ih =>
        intro m hm
        simp only [List.foldl_cons]
        exact ih _ (foldAllocations_pos _ m hm (halloc r bcols wcols))
  exact key df.rows [] (by simp)

/-- Witness for C10: with 350 days per year, the example row's allocations
  and the totals over a one-row record set are all positive. -/
theorem allocations_and_totals_positive_witness :
    (0 : ℤ) < 350 ∧
    (∀ p ∈ allocate_row_brands exRow1 ["B1", "B2"] ["W1", "W2"] 350, 0 < p.2) ∧
    (∀ p ∈ calculate_brand_totals ⟨["B1", "W1", "B2", "W2"], [exRow1]⟩
        ["B1", "B2"] ["W1", "W2"] 350, 0 < p.2) :=
  ⟨by norm_num,
   (allocations_and_totals_positive 350 (by norm_num)).1 exRow1 ["B1", "B2"] ["W1", "W2"],
   (allocations_and_totals_positive 350 (by norm_num)).2
     ⟨["B1", "W1", "B2", "W2"], [exRow1]⟩ ["B1", "B2"] ["W1", "W2"]⟩

/-- `str(row_data.get(groupby_col, "UNKNOWN")).strip()` — the category label
  of one record. The `"UNKNOWN"` default applies only when the groupby key
  is absent from the row mapping; a present-but-null cell renders as
  `"nan"`. -/
def groupValue (row : Record) (groupby_col : String) : String :=
  pyStrip (pyStrVal (rowGet row groupby_col (.vStr "UNKNOWN")))

/-- The raw `rows` list built by `create_pivot_table`: one
  (category, brand, allocated) triple per allocation. -/
def pivotRows (df : DataFrame) (brand_cols workload_cols : List String)
    (days_per_year : ℤ) (groupby_col : String) : List (String × String × ℚ) :=
  df.rows.flatMap (fun row =>
    (allocate_row_brands row brand_cols workload_cols days_per_year).map
      (fun p => (groupValue row groupby_col, p.1, p.2)))

/-- `WorkingAggregator.create_pivot_table`: `None` when the groupby column
  is absent from the schema or when no allocations were produced; otherwise
  the raw triples. The pandas `groupby(...).sum()`/`pivot`/`fillna(0)`
  materialization is captured by `pivotVolume`: the pivot cell at
  (category, brand) is the sum of the matching raw triples, 0 when none
  match. -/
def create_pivot_table (df : DataFrame) (brand_cols workload_cols : List String)
    (days_per_year : ℤ) (groupby_col : String) :
    Option (List (String × String × ℚ)) :=
  if groupby_col ∈ df.cols then
    if pivotRows df brand_cols workload_cols days_per_year groupby_col = [] then none
    else some (pivotRows df brand_cols workload_cols days_per_year groupby_col)
  else none

/-- The materialized pivot cell at (category, brand). -/
def pivotVolume (pt : List (String × String × ℚ)) (cat brand : String) : ℚ :=
  ((pt.filter (fun r => r.1 = cat ∧ r.2.1 = brand)).map (fun r => r.2.2)).sum

/-- The category label of every record, in row order. -/
def categoriesOf (df : DataFrame) (groupby_col : String) : List String :=
  df.rows.map (fun row => groupValue row groupby_col)

lemma sum_fiberwise_filter {α : Type} (l : List α) (key : α → String) (f : α → ℚ)
    (S : Finset String) (hS : ∀ a ∈ l, key a ∈ S) :
    ∑ c ∈ S, ((l.filter (fun a => key a = c)).map f).sum = (l.map f).sum := by
  induction l with
  | nil => simp
  | cons a l ih =>
      have hmem : key a ∈ S := hS a (List.mem_cons_self a l)
      have hrec := ih (fun x hx => hS x (List.mem_cons_of_mem a hx))
      have hsummand : ∀ c ∈ S,
          (((a :: l).filter (fun x => key x = c)).map f).sum
            = (if key a = c then f a else 0)
              + ((l.filter (fun x => key x = c)).map f).sum := by
        intro c _
        by_cases h : key a = c <;> simp [List.filter_cons, h]
      rw [Finset.sum_congr rfl hsummand, Finset.sum_add_distrib, hrec,
        Finset.sum_ite_eq S (key a) (fun _ => f a), if_pos hmem, List.map_cons,
        List.sum_cons]

lemma filter_and_filter (pt : List (String × String × ℚ)) (c b : String) :
    pt.filter (fun r => r.1 = c ∧ r.2.1 = b)
      = (pt.filter (fun r => r.2.1 = b)).filter (fun r => r.1 = c) := by
  rw [List.filter_filter]
  apply List.filter_congr
  intro a _
  simp [Bool.decide_and]

lemma tag_filter_sum (gv : String) (l : List (String × ℚ)) (b : String) :
    (((l.map (fun p => (gv, p.1, p.2))).filter
        (fun r : String × String × ℚ => r.2.1 = b)).map (fun r => r.2.2)).sum
      = sumFor l b := by
  induction l with
  | nil => simp [sumFor]
  | cons p l ih =>
      by_cases h : p.1 = b <;>
        simp [List.filter_cons, h, sumFor_cons, ih]

lemma pivot_brand_filter_sum (rows : List Record)
    (brand_cols workload_cols : List String) (days_per_year : ℤ)
    (groupby_col : String) (b : String) :
    (((rows.flatMap (fun row =>
          (allocate_row_brands row brand_cols workload_cols days_per_year).map
            (fun p => (groupValue row groupby_col, p.1, p.2)))).filter
        (fun r : String × String × ℚ => r.2.1 = b)).map (fun r => r.2.2)).sum
      = sumFor
          (rows.flatMap
            (fun row => allocate_row_brands row brand_cols workload_cols days_per_year))
          b := by
  induction rows with
  | nil => simp [sumFor]
  | cons r rows ih =>
      simp only [List.flatMap_cons, List.filter_append, List.map_append,
        List.sum_append, sumFor_append, ih, tag_filter_sum]

/-- **C3.** Pivot consistency: whenever `create_pivot_table` produces a
  pivot, summing its cells over all observed category values for a fixed
  brand equals that brand's entry in the totals dict computed by
  `calculate_brand_totals` over the same records and configuration. -/
theorem pivot_consistency (df : DataFrame) (brand_cols workload_cols : List String)
    (days_per_year : ℤ) (groupby_col b : String) (pt : List (String × String × ℚ))
    (h : create_pivot_table df brand_cols workload_cols days_per_year groupby_col
          = some pt) :
    ∑ c ∈ (categoriesOf df groupby_col).toFinset, pivotVolume pt c b
      = lookupD (calculate_brand_totals df brand_cols workload_cols days_per_year) b := by
  have hpt : pt = pivotRows df brand_cols workload_cols days_per_year groupby_col := by
    unfold create_pivot_table at h
    split at h
    · split at h
      · exact absurd h (by simp)
      · exact (Option.some.injEq _ _ ▸ h).symm
    · exact absurd h (by simp)
  subst hpt
  rw [lookupD_calculate_brand_totals]
  have hkey : ∀ r ∈ (pivotRows df brand_cols workload_cols days_per_year
        groupby_col).filter (fun r : String × String × ℚ => r.2.1 = b),
      r.1 ∈ (categoriesOf df groupby_col).toFinset := by
    intro r hr
    have hr' := List.mem_filter.mp hr |>.1
    unfold pivotRows at hr'
    obtain ⟨row, hrow, hrmem⟩ := List.mem_flatMap.mp hr'
    obtain ⟨p, _, hp⟩ := List.mem_map.mp hrmem
    rw [List.mem_toFinset]
    exact hp ▸ List.mem_map.mpr ⟨row, hrow, rfl⟩
  have hcell : ∀ c : String,
      pivotVolume (pivotRows df brand_cols workload_cols days_per_year groupby_col) c b
        = ((((pivotRows df brand_cols workload_cols days_per_year groupby_col).filter
              (fun r : String × String × ℚ => r.2.1 = b)).filter
                (fun r : String × String × ℚ => r.1 = c)).map (fun r => r.2.2)).sum := by
    intro c
    unfold pivotVolume
    rw [filter_and_filter]
  have hfib := sum_fiberwise_filter
    ((pivotRows df brand_cols workload_cols days_per_year groupby_col).filter
      (fun r : String × String × ℚ => r.2.1 = b))
    (fun r => r.1) (fun r => r.2.2)
    (categoriesOf df groupby_col).toFinset hkey
  rw [Finset.sum_congr rfl (fun c _ => hcell c), hfib]
  exact pivot_brand_filter_sum df.rows brand_cols workload_cols days_per_year groupby_col b

/-- A one-row dataframe with a city column and one brand slot. -/
def exDf1 : DataFrame :=
  ⟨["CITY", "B1", "W1"],
   [[("CITY", Value.vStr "CityX"), ("B1", Value.vStr "AlphaCo"), ("W1", Value.vNum 10)]]⟩

lemma exDf1_collect :
    collectBrandWorkloads
        [("CITY", Value.vStr "CityX"), ("B1", Value.vStr "AlphaCo"), ("W1", Value.vNum 10)]
        [("B1", "W1")]
      = [("ALPHACO", 10)] := by
  simp +decide [collectBrandWorkloads, rowGet, standardize_brand, clean_numeric,
    pyStrVal, pyStrip, pyUpper, pyUpperChar, brandTruthy, NULL_VALUES]

lemma exDf1_alloc :
    allocate_row_brands
        [("CITY", Value.vStr "CityX"), ("B1", Value.vStr "AlphaCo"), ("W1", Value.vNum 10)]
        ["B1"] ["W1"] 350
      = [("ALPHACO", 3500)] := by
  rw [allocate_row_brands, allocatePairs,
    show ["B1"].zip ["W1"] = [("B1", "W1")] from rfl, exDf1_collect]
  norm_num

lemma exDf1_pivotRows :
    pivotRows exDf1 ["B1"] ["W1"] 350 "CITY" = [("CityX", "ALPHACO", 3500)] := by
  rw [pivotRows]
  simp only [exDf1, List.flatMap_cons, List.flatMap_nil, List.append_nil, exDf1_alloc]
  simp +decide [groupValue, rowGet, pyStrVal, pyStrip]

lemma exDf1_pivot :
    create_pivot_table exDf1 ["B1"] ["W1"] 350 "CITY"
      = some [("CityX", "ALPHACO", 3500)] := by
  rw [create_pivot_table, if_pos (by decide : "CITY" ∈ exDf1.cols), exDf1_pivotRows]
  simp

/-- Witness for C3: on a one-row dataframe the city pivot's ALPHACO column,
  summed over the observed cities, equals ALPHACO's brand total. -/
theorem pivot_consistency_witness :
    create_pivot_table exDf1 ["B1"] ["W1"] 350 "CITY"
        = some [("CityX", "ALPHACO", 3500)] ∧
    ∑ c ∈ (categoriesOf exDf1 "CITY").toFinset,
        pivotVolume [("CityX", "ALPHACO", 3500)] c "ALPHACO"
      = lookupD (calculate_brand_totals exDf1 ["B1"] ["W1"] 350) "ALPHACO" :=
  ⟨exDf1_pivot,
   pivot_consistency exDf1 ["B1"] ["W1"] 350 "CITY" "ALPHACO"
     [("CityX", "ALPHACO", 3500)] exDf1_pivot⟩

/-- A one-row dataframe whose category cell is null (pandas NaN). -/
def exDf2 : DataFrame :=
  ⟨["CITY", "B1", "W1"],
   [[("CITY", Value.vNull), ("B1", Value.vStr "AlphaCo"), ("W1", Value.vNum 10)]]⟩

lemma exDf2_collect :
    collectBrandWorkloads
        [("CITY", Value.vNull), ("B1", Value.vStr "AlphaCo"), ("W1", Value.vNum 10)]
        [("B1", "W1")]
      = [("ALPHACO", 10)] := by
  simp +decide [collectBrandWorkloads, rowGet, standardize_brand, clean_numeric,
    pyStrVal, pyStrip, pyUpper, pyUpperChar, brandTruthy, NULL_VALUES]

lemma exDf2_alloc :
    allocate_row_brands
        [("CITY", Value.vNull), ("B1", Value.vStr "AlphaCo"), ("W1", Value.vNum 10)]
        ["B1"] ["W1"] 350
      = [("ALPHACO", 3500)] := by
  rw [allocate_row_brands, allocatePairs,
    show ["B1"].zip ["W1"] = [("B1", "W1")] from rfl, exDf2_collect]
  norm_num

lemma exDf2_pivot :
    create_pivot_table exDf2 ["B1"] ["W1"] 350 "CITY"
      = some [("nan", "ALPHACO", 3500)] := by
  have hrows : pivotRows exDf2 ["B1"] ["W1"] 350 "CITY" = [("nan", "ALPHACO", 3500)] := by
    rw [pivotRows]
    simp only [exDf2, List.flatMap_cons, List.flatMap_nil, List.append_nil, exDf2_alloc]
    simp +decide [groupValue, rowGet, pyStrVal, pyStrip]
  rw [create_pivot_table, if_pos (by decide : "CITY" ∈ exDf2.cols), hrows]
  simp

/-- **C9 counterexample.** A record whose category cell is null is
  accumulated under the label `"nan"` (Python `str(NaN)` stripped), not
  under `"UNKNOWN"` as the claim states: the `"UNKNOWN"` default of
  `row_data.get(groupby_col, "UNKNOWN")` fires only when the key is absent
  from the row, and `create_pivot_table` already returns `None` when the
  column is missing from the schema. -/
theorem pivot_null_category_counterexample :
    create_pivot_table exDf2 ["B1"] ["W1"] 350 "CITY"
        = some [("nan", "ALPHACO", 3500)] ∧
    "nan" ≠ "UNKNOWN" :=
  ⟨exDf2_pivot, by decide⟩

/-- **C9 (amended).** The pivot builder's category label for a record is
  `str(row.get(groupby_col, "UNKNOWN")).strip()`: a present-but-null cell
  yields the literal `"nan"`, a string cell yields its stripped form (so a
  blank cell yields `""`, not `"UNKNOWN"`), and the `"UNKNOWN"` default
  applies only when the groupby key is absent from the row mapping; every
  pivot row's category label arises this way from some record. -/
theorem groupValue_amended :
    (∀ (row : Record) (groupby_col : String),
        row.lookup groupby_col = some .vNull → groupValue row groupby_col = "nan") ∧
    (∀ (row : Record) (groupby_col : String) (s : String),
        row.lookup groupby_col = some (.vStr s) →
        groupValue row groupby_col = pyStrip s) ∧
    (∀ (row : Record) (groupby_col : String),
        row.lookup groupby_col = none → groupValue row groupby_col = "UNKNOWN") ∧
    (∀ (df : DataFrame) (brand_cols workload_cols : List String) (days_per_year : ℤ)
        (groupby_col : String) (e : String × String × ℚ),
        e ∈ pivotRows df brand_cols workload_cols days_per_year groupby_col →
        ∃ row ∈ df.rows, e.1 = groupValue row groupby_col) := by
  refine ⟨?_, ?_, ?_, ?_⟩
  · intro row gcol h
    unfold groupValue rowGet
    rw [h]
    decide
  · intro row gcol s h
    unfold groupValue rowGet
    rw [h]
    rfl
  · intro row gcol h
    unfold groupValue rowGet
    rw [h]
    decide
  · intro df bcols wcols days gcol e he
    unfold pivotRows at he
    obtain ⟨row, hrow, hrmem⟩ := List.mem_flatMap.mp he
    obtain ⟨p, _, hp⟩ := List.mem_map.mp hrmem
    exact ⟨row, hrow, by rw [← hp]⟩

/-- Witness for C9 (amended): a null cell gives `"nan"`, a blank cell gives
  `""`, an absent key gives `"UNKNOWN"`. -/
theorem groupValue_amended_witness :
    groupValue [("CITY", Value.vNull)] "CITY" = "nan" ∧
    groupValue [("CITY", Value.vStr "  ")] "CITY" = "" ∧
    groupValue [] "CITY" = "UNKNOWN" :=
  ⟨groupValue_amended.1 [("CITY", Value.vNull)] "CITY" (by decide),
   (groupValue_amended.2.1 [("CITY", Value.vStr "  ")] "CITY" "  " (by decide)).trans
     (by decide),
   groupValue_amended.2.2.1 [] "CITY" (by decide)⟩

/-- The dict built by `calculate_summary_stats`. -/
structure SummaryStats where
  total_sites : ℕ
  total_volume : ℚ
  top_brand : String
  unique_cities : ℕ
  unique_classes : ℕ
  class_distribution : List (Value × ℕ)
  region_distribution : List (Value × ℕ)
deriving DecidableEq

/-- `df[c]`: the column as a value list; `KeyError` when the column is
  absent from the schema. -/
def seriesGet (df : DataFrame) (c : String) : Except String (List Value) :=
  if c ∈ df.cols then
    .ok (df.rows.map (fun r => (r.lookup c).getD .vNull))
  else .error ("KeyError: " ++ c)

/-- `Series.nunique()`: number of distinct non-null values. -/
def nuniqueVals (vs : List Value) : ℕ :=
  ((vs.filter (fun v => v ≠ .vNull)).dedup).length

/-- `Series.value_counts().to_dict()`: occurrence count of each distinct
  non-null value. (pandas presents the counts sorted descending; no claim
  depends on the ordering of this dict.) -/
def valueCounts (vs : List Value) : List (Value × ℕ) :=
  ((vs.filter (fun v => v ≠ .vNull)).dedup).map
    (fun v => (v, (vs.filter (fun w => w ≠ .vNull)).count v))

/-- Python `max(items, key=lambda x: x[1])`: the first maximal element
  (a later element replaces the accumulator only when strictly greater);
  raises `ValueError` on an empty sequence. -/
def pyMaxBySnd : List (String × ℚ) → Except String (String × ℚ)
  | [] => .error "max() arg is an empty sequence"
  | x :: xs => .ok (xs.foldl (fun acc y => if acc.2 < y.2 then y else acc) x)

/-- `WorkingAggregator.calculate_summary_stats`, with the Python dict
  literal's evaluation order: an exception from `df["Customer Name"]`, the
  `max` over `market_share.items()`, or the categorical columns propagates
  instead of producing a dict. -/
def calculate_summary_stats (df : DataFrame)
    (brand_totals market_share : List (String × ℚ)) : Except String SummaryStats :=
  match seriesGet df "Customer Name" with
  | .error e => .error e
  | .ok names =>
    match pyMaxBySnd market_share with
    | .error e => .error e
    | .ok top =>
      match seriesGet df "CITY" with
      | .error e => .error e
      | .ok cities =>
        match seriesGet df "Class" with
        | .error e => .error e
        | .ok classes =>
          match seriesGet df "Region" with
          | .error e => .error e
          | .ok regions =>
            .ok ⟨nuniqueVals names, (brand_totals.map Prod.snd).sum, top.1,
                 nuniqueVals cities, nuniqueVals classes,
                 valueCounts classes, valueCounts regions⟩

lemma foldl_max_spec (xs : List (String × ℚ)) (x : String × ℚ) :
    (xs.foldl (fun acc y => if acc.2 < y.2 then y else acc) x ∈ x :: xs) ∧
    (∀ p ∈ x :: xs,
      p.2 ≤ (xs.foldl (fun acc y => if acc.2 < y.2 then y else acc) x).2) := by
  induction xs generalizing x with
  | nil => simp
  | cons y xs ih =>
      simp only [List.foldl_cons]
      have hz : (if x.2 < y.2 then y else x) = y ∨ (if x.2 < y.2 then y else x) = x := by
        by_cases h : x.2 < y.2 <;> simp [h]
      have hx2 : x.2 ≤ (if x.2 < y.2 then y else x).2 := by
        by_cases h : x.2 < y.2 <;> simp [h]
        exact le_of_lt h
      have hy2 : y.2 ≤ (if x.2 < y.2 then y else x).2 := by
        by_cases h : x.2 < y.2 <;> simp [h]
        exact le_of_not_lt h
      obtain ⟨hmem, hle⟩ := ih (if x.2 < y.2 then y else x)
      constructor
      · rcases List.mem_cons.mp hmem with h | h
        · rcases hz with hz | hz <;> rw [h, hz] <;> simp
        · simp [List.mem_cons, h]
      · intro p hp
        rcases List.mem_cons.mp hp with h | h
        · rw [h]
          exact le_trans hx2 (hle _ (List.mem_cons_self _ _))
        · rcases List.mem_cons.mp h with h | h
          · rw [h]
            exact le_trans hy2 (hle _ (List.mem_cons_self _ _))
          · exact hle p (List.mem_cons_of_mem _ h)

lemma pyMaxBySnd_spec (ms : List (String × ℚ)) (r : String × ℚ)
    (h : pyMaxBySnd ms = .ok r) : r ∈ ms ∧ ∀ p ∈ ms, p.2 ≤ r.2 := by
  cases ms with
  | nil => exact absurd h (by simp [pyMaxBySnd])
  | cons x xs =>
      have hr : r = xs.foldl (fun acc y => if acc.2 < y.2 then y else acc) x := by
        have := (Except.ok.injEq _ _ ▸ h : _)
        simpa [pyMaxBySnd] using h.symm
      obtain ⟨hmem, hle⟩ := foldl_max_spec xs x
      exact ⟨hr ▸ hmem, fun p hp => hr ▸ hle p hp⟩

/-- A dataframe with the required base columns and no rows. -/
def exDfStats : DataFrame :=
  ⟨["Customer Name", "CITY", "Class", "Region", "Type"], []⟩

/-- **C6 counterexample.** With an empty MarketShare mapping,
  `calculate_summary_stats` does not surface a "no top brand" condition: it
  raises (`max()` over an empty sequence), modelled as the error result. -/
theorem summary_stats_empty_share_counterexample :
    calculate_summary_stats exDfStats [] []
      = Except.error "max() arg is an empty sequence" := by
  rfl

/-- **C6 (amended).** When MarketShare is empty, `calculate_summary_stats`
  raises `ValueError: max() arg is an empty sequence` (propagated, not an
  explicit "no top brand" value); whenever it returns a dict, MarketShare
  was non-empty and the reported top brand is an arg-max of the
  market-share mapping. -/
theorem calculate_summary_stats_top_brand :
    (∀ (df : DataFrame) (brand_totals : List (String × ℚ)),
        "Customer Name" ∈ df.cols →
        calculate_summary_stats df brand_totals []
          = Except.error "max() arg is an empty sequence") ∧
    (∀ (df : DataFrame) (brand_totals market_share : List (String × ℚ))
        (st : SummaryStats),
        calculate_summary_stats df brand_totals market_share = Except.ok st →
        ∃ v : ℚ, (st.top_brand, v) ∈ market_share ∧ ∀ p ∈ market_share, p.2 ≤ v) := by
  constructor
  · intro df bt hc
    unfold calculate_summary_stats seriesGet
    rw [if_pos hc]
    rfl
  · intro df bt ms st h
    unfold calculate_summary_stats at h
    cases h1 : seriesGet df "Customer Name" with
    | error e => rw [h1] at h; simp at h
    | ok names =>
      rw [h1] at h
      cases h2 : pyMaxBySnd ms with
      | error e => rw [h2] at h; simp at h
      | ok top =>
        rw [h2] at h
        cases h3 : seriesGet df "CITY" with
        | error e => rw [h3] at h; simp at h
        | ok cities =>
          rw [h3] at h
          cases h4 : seriesGet df "Class" with
          | error e => rw [h4] at h; simp at h
          | ok classes =>
            rw [h4] at h
            cases h5 : seriesGet df "Region" with
            | error e => rw [h5] at h; simp at h
            | ok regions =>
              rw [h5] at h
              simp only [Except.ok.injEq] at h
              subst h
              obtain ⟨hmem, hle⟩ := pyMaxBySnd_spec ms top h2
              exact ⟨top.2, by simpa using hmem, hle⟩

/-- Witness for C6 (amended): the raise on an empty mapping, and the
  arg-max on the spec's example shares (BetaCo 60, AlphaCo 40). -/
theorem calculate_summary_stats_top_brand_witness :
    calculate_summary_stats exDfStats [("BRANDA", 100)] []
        = Except.error "max() arg is an empty sequence" ∧
    (∃ v : ℚ, (("BETACO" : String), v) ∈ [(("BETACO" : String), (60 : ℚ)), ("ALPHACO", 40)] ∧
        ∀ p ∈ [(("BETACO" : String), (60 : ℚ)), ("ALPHACO", 40)], p.2 ≤ v) :=
  ⟨calculate_summary_stats_top_brand.1 exDfStats [("BRANDA", 100)] (by decide),
   calculate_summary_stats_top_brand.2 exDfStats [] [("BETACO", 60), ("ALPHACO", 40)]
     ⟨0, 0, "BETACO", 0, 0, [], []⟩ (by rfl)⟩

/-- The base columns `validate_data` requires. -/
def required_base_cols : List String :=
  ["Customer Name", "CITY", "Class", "Region", "Type"]

/-- `WorkingAggregator.validate_columns`: raise when any required column is
  absent from the schema. (The Python f-string interpolation of the missing
  list is rendered with commas.) -/
def validate_columns (df : DataFrame) (required_cols : List String) :
    Except String Bool :=
  if required_cols.filter (fun c => c ∉ df.cols) = [] then .ok true
  else
    .error ("Missing required columns: "
      ++ String.intercalate ", " (required_cols.filter (fun c => c ∉ df.cols)))

/-- `WorkingAggregator.validate_data`: raise on an empty dataframe, then
  check the base columns (the null-count pass only logs a warning). -/
def validate_data (df : DataFrame) : Except String Bool :=
  if pdEmpty df then .error "Empty dataset provided"
  else
    match validate_columns df required_base_cols with
    | .error e => .error e
    | .ok _ => .ok true

/-- One analyzer's column configuration (`config["analyzers"][t]`). -/
structure AnalyzerConfig where
  brand_columns : List String
  workload_columns : List String
  test_price : ℚ
deriving DecidableEq

/-- The analysis configuration: the analyzers dict and
  `config["analysis_settings"]["days_per_year"]`. -/
structure Config where
  analyzers : List (String × AnalyzerConfig)
  days_per_year : ℤ
deriving DecidableEq

/-- The `AnalysisResult` dataclass (the engine-relevant fields; the pivot
  dataframes are represented by their raw triples as in
  `create_pivot_table`). -/
structure AnalysisResult where
  brand_totals : List (String × ℚ)
  market_share : List (String × ℚ)
  brand_values : List (String × ℚ)
  city_pivot : Option (List (String × String × ℚ))
  class_pivot : Option (List (String × String × ℚ))
  region_pivot : Option (List (String × String × ℚ))
  type_pivot : Option (List (String × String × ℚ))
  summary_stats : SummaryStats
deriving DecidableEq

/-- `WorkingAggregator.analyze_market_data`: validate, look up the analyzer
  configuration, then compute totals, shares, values, the four pivots and
  the summary statistics; any raised exception propagates (the Python
  `except` clause logs and re-raises). -/
def analyze_market_data (df : DataFrame) (config : Config) (analyzer_type : String) :
    Except String AnalysisResult :=
  match validate_data df with
  | .error e => .error e
  | .ok _ =>
    match config.analyzers.lookup analyzer_type with
    | none => .error ("Invalid analyzer type: " ++ analyzer_type)
    | some ac =>
      if ac.brand_columns = [] ∨ ac.workload_columns = [] then
        .error ("Missing column configuration for " ++ analyzer_type)
      else
        match calculate_summary_stats df
            (calculate_brand_totals df ac.brand_columns ac.workload_columns
              config.days_per_year)
            (calculate_market_share
              (calculate_brand_totals df ac.brand_columns ac.workload_columns
                config.days_per_year)) with
        | .error e => .error e
        | .ok stats =>
          .ok ⟨calculate_brand_totals df ac.brand_columns ac.workload_columns
                config.days_per_year,
               calculate_market_share
                 (calculate_brand_totals df ac.brand_columns ac.workload_columns
                   config.days_per_year),
               (calculate_brand_totals df ac.brand_columns ac.workload_columns
                 config.days_per_year).map (fun p => (p.1, p.2 * ac.test_price)),
               create_pivot_table df ac.brand_columns ac.workload_columns
                 config.days_per_year "CITY",
               create_pivot_table df ac.brand_columns ac.workload_columns
                 config.days_per_year "Class",
               create_pivot_table df ac.brand_columns ac.workload_columns
                 config.days_per_year "Region",
               create_pivot_table df ac.brand_columns ac.workload_columns
                 config.days_per_year "Type",
               stats⟩

/-- A minimal one-analyzer configuration. -/
def exCfg : Config := ⟨[("IA", ⟨["B1"], ["W1"], 250⟩)], 350⟩

/-- **C5 counterexample.** An empty record set does not yield empty
  results: `validate_data` raises `ValueError("Empty dataset provided")`
  and `analyze_market_data` re-raises it, so no `AnalysisResult` (and no
  empty BrandTotals / MarketShare / zero SummaryStats) is returned. -/
theorem analyze_empty_counterexample :
    analyze_market_data ⟨[], []⟩ exCfg "IA"
      = Except.error "Empty dataset provided" := by
  rfl

/-- **C5 (amended).** For any record set with zero rows (whatever the
  schema and configuration), `validate_data` raises
  `ValueError("Empty dataset provided")` and `analyze_market_data`
  propagates that exception instead of returning empty BrandTotals, empty
  MarketShare and a zero SummaryStats. This matches the repository's own
  test `test_validate_data_empty`, which expects the raise. -/
theorem analyze_empty_raises (cols : List String) (config : Config)
    (analyzer_type : String) :
    validate_data ⟨cols, []⟩ = Except.error "Empty dataset provided" ∧
    analyze_market_data ⟨cols, []⟩ config analyzer_type
      = Except.error "Empty dataset provided" := by
  have hv : validate_data ⟨cols, []⟩ = Except.error "Empty dataset provided" := by
    unfold validate_data pdEmpty
    simp
  exact ⟨hv, by unfold analyze_market_data; rw [hv]⟩

end MarketShare
